import Mathlib

/-!
Verification of the Gym workout-logging client (src/App.tsx and src/types).

The development shallowly embeds the parts of the program that the spec's
claims are about:

* the data model (`Set`, `ExerciseInstance`, `Workout` from src/types);
* the optimistic collection store operations of `GymProvider`
  (`addWorkout`, `updateWorkout`, `deleteWorkout`, `copyWorkout`);
* the `WorkoutEditor` draft state machine: the hydration effect, the
  debounced-autosave effect, the edit handlers (`addExercise`, `addSet`,
  `deleteSet`), the timer handlers (`toggleTimer`, `handleFinish`,
  `handleResume`) and `handleSaveBack`;
* the gesture hooks `useLongPress` and `useSwipe`, and the settle decision of
  `SwipeableItem.handlePointerUp`.

Modelling conventions:

* JS numbers are modelled as `ℚ` (timestamps in milliseconds, exactly as
  `Date.now()` yields them; the program's `/ 1000` conversions are exact in
  `ℚ`).  The program never relies on float rounding in the claimed
  properties.
* `number | null` fields are `Option ℚ`.  The JS truthiness tests
  `if (workout.startTimestamp)` are modelled as the `none`/`some` match: the
  field only ever holds `null` or a `Date.now()` value, and `Date.now()` is
  positive.  Likewise `x || 0` on a `ℚ` value is the identity (it maps `0`
  to `0` and anything else to itself) and is dropped.
* React semantics for the editor: the mutable refs (`loadedIdRef`,
  `isHydratingRef`, `isDirtyRef`, `editSeqRef`, `autosaveTimerRef`) and the
  `workout` state are collected in `EditorState` together with the context
  store and logs of the store writes that the component issues.  A `useEffect`
  with dependency `[workout]` is re-run immediately after the state update
  that changes `workout`; the cleanup of the previous effect run (which clears
  the pending autosave timer) runs before the next body.
* React semantics for `useLongPress`: event handlers read the `startLongPress`
  value of the render they were created in (`LPState.rendered`);
  `setStartLongPress` only updates the scheduled value (`LPState.scheduled`),
  which is committed by a subsequent `render` event that also re-runs the
  hook's effect.  A timer firing and a pointer-up in the same tick is the
  event sequence `fire, up` with no `render` between them.
-/

namespace Gym

/-- One set of an exercise (src/types `interface Set`). -/
structure Set where
  id : String
  weight : ℚ
  reps : ℚ
  completed : Bool
deriving DecidableEq, Repr

/-- An exercise instance inside a workout (src/types `interface ExerciseInstance`). -/
structure ExerciseInstance where
  id : String
  defId : String
  sets : List Set
deriving DecidableEq, Repr

/-- A workout record (src/types `interface Workout`). -/
structure Workout where
  id : String
  date : String
  title : String
  note : String
  exercises : List ExerciseInstance
  completed : Bool
  elapsedSeconds : ℚ
  startTimestamp : Option ℚ
deriving DecidableEq, Repr

/-- `addWorkout` of `GymProvider`: optimistic append to the workouts list
(App.tsx line 180, `setWorkouts(prev => [...prev, workout])`). -/
def addWorkout (workout : Workout) (workouts : List Workout) : List Workout :=
  workouts ++ [workout]

/-- `updateWorkout` of `GymProvider` (App.tsx line 202,
`setWorkouts(prev => prev.map(w => w.id === updated.id ? updated : w))`). -/
def updateWorkout (updated : Workout) (workouts : List Workout) : List Workout :=
  workouts.map (fun w => if w.id = updated.id then updated else w)

/-- `deleteWorkout` of `GymProvider` (App.tsx line 223,
`setWorkouts(prev => prev.filter(w => w.id !== id))`). -/
def deleteWorkout (i : String) (workouts : List Workout) : List Workout :=
  workouts.filter (fun w => w.id ≠ i)

/-- `copyWorkout` of `GymProvider` (App.tsx lines 253-270).  `freshId` models
the value returned by `generateId()` for the copy. -/
def copyWorkout (workoutId targetDate freshId : String)
    (workouts : List Workout) : List Workout :=
  match workouts.find? (fun w => w.id = workoutId) with
  | none => workouts
  | some source =>
      addWorkout
        { source with
            id := freshId
            date := targetDate
            completed := false
            elapsedSeconds := 0
            startTimestamp := none
            exercises := source.exercises.map (fun ex =>
              { ex with sets := ex.sets.map (fun s => { s with completed := false }) }) }
        workouts

/-- The route parameter value of the new-workout route. -/
def routeNew : String := "new"

/-- The process-local state of one open `WorkoutEditor` instance, together
with the context store it writes to.  `pendingAutosave` models the debounce
timer: `some (seq, w)` is a scheduled flush of working copy `w` that captured
`editSeq = seq` at scheduling time.  `upsertLog` records every
`saveWorkoutToContext` call (each is one store upsert) and `deleteLog` every
`deleteWorkout` call, in order. -/
structure EditorState where
  workout : Workout
  currentTime : ℚ
  loadedId : Option String
  isHydrating : Bool
  isDirty : Bool
  editSeq : Nat
  pendingAutosave : Option (Nat × Workout)
  store : List Workout
  upsertLog : List Workout
  deleteLog : List String
deriving DecidableEq, Repr

/-- `markDirty` (App.tsx lines 913-916). -/
def markDirty (s : EditorState) : EditorState :=
  { s with isDirty := true, editSeq := s.editSeq + 1 }

/-- `saveWorkoutToContext` (App.tsx lines 973-977): update if the identity is
already in the store, insert otherwise.  Both paths issue one store upsert,
recorded in `upsertLog`. -/
def saveWorkoutToContext (w : Workout) (s : EditorState) : EditorState :=
  if s.store.any (fun existing => existing.id = w.id) then
    { s with store := updateWorkout w s.store, upsertLog := s.upsertLog ++ [w] }
  else
    { s with store := addWorkout w s.store, upsertLog := s.upsertLog ++ [w] }

/-- The debounced-autosave effect (App.tsx lines 980-1000), run after every
change of `workout`.  The cleanup of the previous run has cleared any pending
timer (`pendingAutosave := none`); then the body returns early if
`isHydratingRef.current`, `!isDirtyRef.current`, or
`workout.exercises.length === 0`, and otherwise schedules a flush capturing
the current `editSeqRef.current` and the current working copy. -/
def autosaveEffect (s : EditorState) : EditorState :=
  if s.isHydrating then { s with pendingAutosave := none }
  else if !s.isDirty then { s with pendingAutosave := none }
  else if s.workout.exercises.length = 0 then { s with pendingAutosave := none }
  else { s with pendingAutosave := some (s.editSeq, s.workout) }

/-- The autosave timer firing (the callback at App.tsx lines 989-995):
flush the captured working copy via `saveWorkoutToContext`, then clear
`isDirtyRef` only if nothing changed since this save was scheduled
(`seq === editSeqRef.current`). -/
def timerFire (s : EditorState) : EditorState :=
  match s.pendingAutosave with
  | none => s
  | some (seq, w) =>
      let s1 := saveWorkoutToContext w { s with pendingAutosave := none }
      if seq = s1.editSeq then { s1 with isDirty := false } else s1

/-- One local edit that only calls `markDirty()` and `setWorkout` (such as
`updateSet`, `addSet`, `deleteSet`, or the inline exercise-removal handler):
the working copy becomes `f workout` and the autosave effect re-runs. -/
def editStep (f : Workout → Workout) (s : EditorState) : EditorState :=
  autosaveEffect { markDirty s with workout := f s.workout }

/-- A run of consecutive local edits (one debounce quiet window contains such
a run followed by a `timerFire`). -/
def editRun (fs : List (Workout → Workout)) (s : EditorState) : EditorState :=
  fs.foldl (fun st f => editStep f st) s

/-- The live timer display recomputation at hydration (App.tsx lines 951-953):
`elapsedSeconds` plus the wall time since `startTimestamp` if running. -/
def elapsedPlusRunning (w : Workout) (now : ℚ) : ℚ :=
  let elapsed := w.elapsedSeconds
  let additional := match w.startTimestamp with
    | some ts => (now - ts) / 1000
    | none => 0
  elapsed + additional

/-- The hydration effect (App.tsx lines 918-957), re-run whenever the route
id or the backing `workouts` collection changes.  `freshWorkout` models the
default draft built for the new-workout route (with a `generateId()` id) and
`now` models `Date.now()`. -/
def hydrateEffect (routeId : String) (freshWorkout : Workout) (now : ℚ)
    (s : EditorState) : EditorState :=
  if routeId = routeNew then
    if s.loadedId = some routeNew then s
    else
      { s with
          isHydrating := true
          isDirty := false
          workout := freshWorkout
          currentTime := 0
          loadedId := some routeNew }
  else if s.loadedId = some routeId then s
  else if s.isDirty then s
  else
    match s.store.find? (fun w => w.id = routeId) with
    | none => s
    | some existing =>
        { s with
            isHydrating := true
            workout := existing
            currentTime := elapsedPlusRunning existing now
            loadedId := some routeId
            isDirty := false }

/-- The deferred `setTimeout(() => { isHydratingRef.current = false; }, 0)`
of the hydration effect: the next scheduling tick clears `isHydrating`. -/
def clearHydrating (s : EditorState) : EditorState :=
  { s with isHydrating := false }

/-- An external refresh of the backing workouts collection while the editor
is open: the context delivers `newStore` and the hydration effect re-runs. -/
def storeRefresh (routeId : String) (freshWorkout : Workout) (now : ℚ)
    (newStore : List Workout) (s : EditorState) : EditorState :=
  hydrateEffect routeId freshWorkout now { s with store := newStore }

/-- `toggleTimer` (App.tsx lines 1002-1016). -/
def toggleTimer (now : ℚ) (s : EditorState) : EditorState :=
  if s.workout.completed then s
  else
    let updated : Workout :=
      match s.workout.startTimestamp with
      | some ts =>
          { s.workout with
              startTimestamp := none
              elapsedSeconds := s.workout.elapsedSeconds + (now - ts) / 1000 }
      | none => { s.workout with startTimestamp := some now }
    let s1 := { markDirty s with workout := updated }
    let s2 := if updated.exercises.length > 0 then saveWorkoutToContext updated s1 else s1
    autosaveEffect s2

/-- `handleFinish` (App.tsx lines 1018-1031). -/
def handleFinish (now : ℚ) (s : EditorState) : EditorState :=
  if s.workout.exercises.length = 0 then
    if s.store.any (fun w => w.id = s.workout.id) then
      { s with
          store := deleteWorkout s.workout.id s.store
          deleteLog := s.deleteLog ++ [s.workout.id] }
    else s
  else
    let finalElapsed := s.workout.elapsedSeconds +
      (match s.workout.startTimestamp with
       | some ts => (now - ts) / 1000
       | none => 0)
    let updated := { s.workout with
        completed := true
        startTimestamp := none
        elapsedSeconds := finalElapsed }
    autosaveEffect (saveWorkoutToContext updated { s with workout := updated })

/-- `handleResume` (App.tsx lines 1033-1037). -/
def handleResume (s : EditorState) : EditorState :=
  let updated := { s.workout with completed := false }
  autosaveEffect (saveWorkoutToContext updated { s with workout := updated })

/-- `handleSaveBack` (App.tsx lines 1040-1048). -/
def handleSaveBack (s : EditorState) : EditorState :=
  if s.workout.exercises.length = 0 then
    if s.store.any (fun w => w.id = s.workout.id) then
      { s with
          store := deleteWorkout s.workout.id s.store
          deleteLog := s.deleteLog ++ [s.workout.id] }
    else s
  else
    saveWorkoutToContext s.workout s

/-- The default set created by the editor: `{ id: generateId(), weight: 0,
reps: 0, completed: false }`. -/
def defaultSet (freshSetId : String) : Set :=
  { id := freshSetId, weight := 0, reps := 0, completed := false }

/-- `addExercise` (App.tsx lines 1050-1060).  `freshInstId` and `freshSetId`
model the two `generateId()` calls. -/
def addExercise (defId freshInstId freshSetId : String)
    (s : EditorState) : EditorState :=
  let baseWorkout :=
    if s.workout.completed then { s.workout with completed := false } else s.workout
  let newInstance : ExerciseInstance :=
    { id := freshInstId, defId := defId, sets := [defaultSet freshSetId] }
  let updated := { baseWorkout with exercises := baseWorkout.exercises ++ [newInstance] }
  let s1 := { markDirty s with workout := updated }
  autosaveEffect (saveWorkoutToContext updated s1)

/-- `addSet` (App.tsx lines 1071-1082): the new set copies weight and reps of
the last set (`last?.weight || 0`, `last?.reps || 0`). -/
def addSet (exId freshSetId : String) (s : EditorState) : EditorState :=
  let updated := { s.workout with
    exercises := s.workout.exercises.map (fun ex =>
      if ex.id ≠ exId then ex
      else
        let last := ex.sets.getLast?
        { ex with sets := ex.sets ++
            [{ id := freshSetId
               weight := match last with | some l => l.weight | none => 0
               reps := match last with | some l => l.reps | none => 0
               completed := false }] }) }
  autosaveEffect { markDirty s with workout := updated }

/-- `deleteSet` (App.tsx lines 1084-1096): deleting the last remaining set
replaces it with one fresh default set. -/
def deleteSet (exId setId freshSetId : String) (s : EditorState) : EditorState :=
  let updated := { s.workout with
    exercises := s.workout.exercises.map (fun ex =>
      if ex.id ≠ exId then ex
      else
        let next := ex.sets.filter (fun t => t.id ≠ setId)
        { ex with sets := if next.length > 0 then next else [defaultSet freshSetId] }) }
  autosaveEffect { markDirty s with workout := updated }

/-- The at-least-one-set invariant of the working copy. -/
def atLeastOneSet (w : Workout) : Prop :=
  ∀ ex ∈ w.exercises, ex.sets ≠ []

instance (w : Workout) : Decidable (atLeastOneSet w) := by
  unfold atLeastOneSet
  infer_instance

/-- Directional swipe callbacks of `useSwipe`. -/
inductive SwipeDir where
  | left
  | right
  | up
  | down
deriving DecidableEq, Repr

/-- `minSwipeDistance` of `useSwipe` (App.tsx line 1929). -/
def minSwipeDistance : ℚ := 50

/-- `onPointerUp` of `useSwipe` (App.tsx lines 1948-1965), returning the list
of directional callbacks it invokes, in invocation order.  `touchStart` and
`touchEnd` are the captured refs; either missing means no classification. -/
def onPointerUpSwipe (touchStart touchEnd : Option (ℚ × ℚ)) : List SwipeDir :=
  match touchStart, touchEnd with
  | some ps, some pe =>
      let distanceX := ps.1 - pe.1
      let distanceY := ps.2 - pe.2
      if |distanceX| > |distanceY| then
        if |distanceX| < minSwipeDistance then []
        else
          (if distanceX > 0 then [SwipeDir.left] else []) ++
          (if distanceX < 0 then [SwipeDir.right] else [])
      else
        if |distanceY| < minSwipeDistance then []
        else
          (if distanceY > 0 then [SwipeDir.up] else []) ++
          (if distanceY < 0 then [SwipeDir.down] else [])
  | _, _ => []

/-- `ACTION_WIDTH` of `SwipeableItem` (App.tsx line 1978). -/
def ACTION_WIDTH : ℚ := 128

/-- `OPEN_THRESHOLD = Math.max(18, ACTION_WIDTH * 0.18)` (App.tsx line 1980). -/
def OPEN_THRESHOLD : ℚ := max 18 (ACTION_WIDTH * 0.18)

/-- `VELOCITY_OPEN` (App.tsx line 1981), in px/ms. -/
def VELOCITY_OPEN : ℚ := 0.55

/-- The settle decision of `SwipeableItem.handlePointerUp` for a
horizontally-locked drag (App.tsx lines 2057-2067): `x` is the final offset
(`offsetXRef.current`), `baseOffset` the offset at drag start, `elapsedMs`
the wall time since drag start.  Returns the offset the row settles to. -/
def handlePointerUpSettle (x baseOffset elapsedMs : ℚ) : ℚ :=
  let dt := max 1 elapsedMs
  let dx := x - baseOffset
  let v := |dx| / dt
  if x > OPEN_THRESHOLD ∨ (dx > 12 ∧ v > VELOCITY_OPEN) then ACTION_WIDTH
  else if x < -OPEN_THRESHOLD ∨ (dx < -12 ∧ v > VELOCITY_OPEN) then -ACTION_WIDTH
  else 0

/-- Events of one `useLongPress` pointer session.  `render` commits a pending
`setStartLongPress` and re-runs the hook's effect; `fire` is the long-press
timer expiring. -/
inductive LPEvent where
  | down (x y : ℚ)
  | move (x y : ℚ)
  | up
  | leave
  | fire
  | render
deriving DecidableEq, Repr

/-- The observable state of `useLongPress` (App.tsx lines 1859-1916).
`rendered` is the `startLongPress` value the current handler closures see;
`scheduled` is the latest value passed to `setStartLongPress`; `timerLive`
says a scheduled, unfired, uncancelled timeout exists; `timerRefSet` says
`timerRef.current` holds a (possibly stale) timer id — the code never resets
it, so it stays true once a timer has been armed. -/
structure LPState where
  rendered : Bool
  scheduled : Bool
  timerLive : Bool
  timerRefSet : Bool
  startPos : Option (ℚ × ℚ)
  longPressCount : Nat
  tapCount : Nat
deriving DecidableEq, Repr

/-- Initial hook state. -/
def lpInit : LPState :=
  { rendered := false, scheduled := false, timerLive := false, timerRefSet := false
    startPos := none, longPressCount := 0, tapCount := 0 }

/-- `cancel` (App.tsx lines 1882-1887): only acts if the closure sees
`startLongPress` true; `clearTimeout` kills the live timer synchronously. -/
def lpCancel (s : LPState) : LPState :=
  if s.rendered then { s with scheduled := false, timerLive := false } else s

/-- One event of a `useLongPress` session.

* `down`: `onPointerDown` records the start position and sets
  `startLongPress` to true.
* `move`: `onPointerMove` cancels when displacement exceeds 10 px in either
  axis (guarded by the closure's `startLongPress` and a recorded start).
* `up`: `onPointerUp` — if the closure sees `startLongPress`, it schedules
  `setStartLongPress(false)` and, when `timerRef.current` is truthy, clears
  the timeout and invokes `onClick`.
* `leave`: `onPointerLeave` calls `cancel`.
* `fire`: the armed timeout expires — `callback()` runs and
  `setStartLongPress(false)` is scheduled; `timerRef.current` is left set.
* `render`: React commits the scheduled `startLongPress`; if it changed, the
  effect re-runs: it arms a fresh timeout when true, else clears. -/
def lpStep (s : LPState) : LPEvent → LPState
  | LPEvent.down x y => { s with startPos := some (x, y), scheduled := true }
  | LPEvent.move x y =>
      match s.startPos with
      | some p =>
          if s.rendered ∧ (|x - p.1| > 10 ∨ |y - p.2| > 10) then lpCancel s else s
      | none => s
  | LPEvent.up =>
      let s1 :=
        if s.rendered then
          let s2 := { s with scheduled := false }
          if s2.timerRefSet then
            { s2 with timerLive := false, tapCount := s2.tapCount + 1 }
          else s2
        else s
      { s1 with startPos := none }
  | LPEvent.leave => lpCancel s
  | LPEvent.fire =>
      if s.timerLive then
        { s with timerLive := false, scheduled := false
                 longPressCount := s.longPressCount + 1 }
      else s
  | LPEvent.render =>
      if s.rendered = s.scheduled then s
      else
        let s1 := { s with rendered := s.scheduled }
        if s1.rendered then { s1 with timerLive := true, timerRefSet := true }
        else { s1 with timerLive := false }

/-- A whole pointer session of `useLongPress`. -/
def runLP (events : List LPEvent) : LPState :=
  events.foldl lpStep lpInit

/-- The race the spec singles out: the long-press timer fires and the
pointer-up is processed in the same tick, before React commits the
`setStartLongPress(false)` from the timer callback. -/
def raceTrace : List LPEvent :=
  [LPEvent.down 0 0, LPEvent.render, LPEvent.fire, LPEvent.up]

/-! Sample data used by the witnesses. -/

/-- A concrete set. -/
def sampleSet : Set :=
  { id := "s1", weight := 100, reps := 5, completed := false }

/-- A concrete exercise instance. -/
def sampleExercise : ExerciseInstance :=
  { id := "e1", defId := "d1", sets := [sampleSet] }

/-- A concrete workout stored in the collection. -/
def sampleWorkout : Workout :=
  { id := "w1", date := "2025-01-01", title := "Push Day", note := ""
    exercises := [sampleExercise], completed := false
    elapsedSeconds := 0, startTimestamp := none }

/-- The same identity as `sampleWorkout` but with a different payload, as a
remote refresh would deliver it. -/
def sampleRemote : Workout :=
  { sampleWorkout with title := "Remote Title", note := "remote edit" }

/-- An editor instance that loaded `sampleWorkout` and has unsaved local
edits (`isDirty = true`). -/
def dirtyEditor : EditorState :=
  { workout := { sampleWorkout with title := "Edited Locally" }
    currentTime := 0, loadedId := some sampleWorkout.id
    isHydrating := false, isDirty := true, editSeq := 3
    pendingAutosave := none, store := [sampleWorkout]
    upsertLog := [], deleteLog := [] }

/-- An editor instance with no unsaved edits. -/
def cleanEditor : EditorState :=
  { workout := sampleWorkout
    currentTime := 0, loadedId := some sampleWorkout.id
    isHydrating := false, isDirty := false, editSeq := 0
    pendingAutosave := none, store := [sampleWorkout]
    upsertLog := [], deleteLog := [] }

/-! Field lemmas for the editor operations. -/

/-- `saveWorkoutToContext` only touches the store and the upsert log. -/
theorem saveWorkoutToContext_eq (w : Workout) (s : EditorState) :
    saveWorkoutToContext w s =
      { s with
          store := if s.store.any (fun existing => existing.id = w.id) then
              updateWorkout w s.store
            else addWorkout w s.store
          upsertLog := s.upsertLog ++ [w] } := by
  unfold saveWorkoutToContext
  split_ifs <;> rfl

/-- The working copy is untouched by a context save. -/
theorem saveWorkoutToContext_workout (w : Workout) (s : EditorState) :
    (saveWorkoutToContext w s).workout = s.workout := by
  rw [saveWorkoutToContext_eq]

/-- The edit-sequence counter is untouched by a context save. -/
theorem saveWorkoutToContext_editSeq (w : Workout) (s : EditorState) :
    (saveWorkoutToContext w s).editSeq = s.editSeq := by
  rw [saveWorkoutToContext_eq]

/-- The dirty flag is untouched by a context save. -/
theorem saveWorkoutToContext_isDirty (w : Workout) (s : EditorState) :
    (saveWorkoutToContext w s).isDirty = s.isDirty := by
  rw [saveWorkoutToContext_eq]

/-- The upsert log grows by exactly the saved workout. -/
theorem saveWorkoutToContext_upsertLog (w : Workout) (s : EditorState) :
    (saveWorkoutToContext w s).upsertLog = s.upsertLog ++ [w] := by
  rw [saveWorkoutToContext_eq]

/-- The delete log is untouched by a context save. -/
theorem saveWorkoutToContext_deleteLog (w : Workout) (s : EditorState) :
    (saveWorkoutToContext w s).deleteLog = s.deleteLog := by
  rw [saveWorkoutToContext_eq]

/-- The resulting store of a context save. -/
theorem saveWorkoutToContext_store (w : Workout) (s : EditorState) :
    (saveWorkoutToContext w s).store =
      if s.store.any (fun existing => existing.id = w.id) then updateWorkout w s.store
      else addWorkout w s.store := by
  rw [saveWorkoutToContext_eq]

/-- The autosave effect only touches `pendingAutosave`. -/
theorem autosaveEffect_workout (s : EditorState) :
    (autosaveEffect s).workout = s.workout := by
  unfold autosaveEffect
  split_ifs <;> rfl

/-- The autosave effect does not write the store. -/
theorem autosaveEffect_store (s : EditorState) :
    (autosaveEffect s).store = s.store := by
  unfold autosaveEffect
  split_ifs <;> rfl

/-- The autosave effect issues no upsert. -/
theorem autosaveEffect_upsertLog (s : EditorState) :
    (autosaveEffect s).upsertLog = s.upsertLog := by
  unfold autosaveEffect
  split_ifs <;> rfl

/-- The autosave effect issues no delete. -/
theorem autosaveEffect_deleteLog (s : EditorState) :
    (autosaveEffect s).deleteLog = s.deleteLog := by
  unfold autosaveEffect
  split_ifs <;> rfl

/-- The autosave effect leaves the dirty flag alone. -/
theorem autosaveEffect_isDirty (s : EditorState) :
    (autosaveEffect s).isDirty = s.isDirty := by
  unfold autosaveEffect
  split_ifs <;> rfl

/-- The autosave effect leaves the edit-sequence counter alone. -/
theorem autosaveEffect_editSeq (s : EditorState) :
    (autosaveEffect s).editSeq = s.editSeq := by
  unfold autosaveEffect
  split_ifs <;> rfl

/-- The autosave effect leaves the hydration flag alone. -/
theorem autosaveEffect_isHydrating (s : EditorState) :
    (autosaveEffect s).isHydrating = s.isHydrating := by
  unfold autosaveEffect
  split_ifs <;> rfl

/-- What the autosave effect leaves pending: nothing when one of the guards
holds, otherwise exactly one flush of the current working copy capturing the
current edit sequence. -/
theorem autosaveEffect_pending (s : EditorState) :
    (autosaveEffect s).pendingAutosave =
      if s.isHydrating = true ∨ s.isDirty = false ∨ s.workout.exercises = [] then none
      else some (s.editSeq, s.workout) := by
  unfold autosaveEffect
  split_ifs <;> simp_all [List.length_eq_zero]

/-- When a guard holds the autosave effect only clears the pending timer. -/
theorem autosaveEffect_guarded (s : EditorState)
    (h : s.isHydrating = true ∨ s.isDirty = false ∨ s.workout.exercises = []) :
    autosaveEffect s = { s with pendingAutosave := none } := by
  unfold autosaveEffect
  split_ifs with h1 h2 h3 <;> first
    | rfl
    | (exact absurd h (by simp_all [List.length_eq_zero]))

/-- Hydration never writes the store. -/
theorem hydrateEffect_store (r : String) (f : Workout) (n : ℚ) (s : EditorState) :
    (hydrateEffect r f n s).store = s.store := by
  unfold hydrateEffect
  split_ifs <;> try rfl
  split <;> rfl

/-- Hydration issues no upsert. -/
theorem hydrateEffect_upsertLog (r : String) (f : Workout) (n : ℚ) (s : EditorState) :
    (hydrateEffect r f n s).upsertLog = s.upsertLog := by
  unfold hydrateEffect
  split_ifs <;> try rfl
  split <;> rfl

/-- Hydration issues no delete. -/
theorem hydrateEffect_deleteLog (r : String) (f : Workout) (n : ℚ) (s : EditorState) :
    (hydrateEffect r f n s).deleteLog = s.deleteLog := by
  unfold hydrateEffect
  split_ifs <;> try rfl
  split <;> rfl

/-- Hydration does not disturb a pending autosave timer. -/
theorem hydrateEffect_pending (r : String) (f : Workout) (n : ℚ) (s : EditorState) :
    (hydrateEffect r f n s).pendingAutosave = s.pendingAutosave := by
  unfold hydrateEffect
  split_ifs <;> try rfl
  split <;> rfl

/-- If the hydration effect changes the editor state at all, it has performed
a hydration: the reconciled render observes `isHydrating = true` and the
dirty flag freshly cleared. -/
theorem hydrateEffect_changed (r : String) (f : Workout) (n : ℚ) (s : EditorState)
    (h : hydrateEffect r f n s ≠ s) :
    (hydrateEffect r f n s).isHydrating = true ∧
    (hydrateEffect r f n s).isDirty = false := by
  unfold hydrateEffect at h ⊢
  split_ifs at h ⊢
  · exact absurd rfl h
  · exact ⟨rfl, rfl⟩
  · exact absurd rfl h
  · exact absurd rfl h
  · cases hf : s.store.find? (fun w => w.id = r) with
    | none => rw [hf] at h; exact absurd rfl h
    | some existing => exact ⟨rfl, rfl⟩

/-- With local edits pending, hydration of an existing identity is skipped
entirely. -/
theorem hydrateEffect_dirty_skip (r : String) (f : Workout) (n : ℚ)
    (s : EditorState) (hr : r ≠ routeNew) (hd : s.isDirty = true) :
    hydrateEffect r f n s = s := by
  unfold hydrateEffect
  rw [if_neg hr]
  split_ifs <;> rfl

/-- Hydration of an identity that is already loaded is skipped. -/
theorem hydrateEffect_loaded_skip (r : String) (f : Workout) (n : ℚ)
    (s : EditorState) (hr : r ≠ routeNew) (hl : s.loadedId = some r) :
    hydrateEffect r f n s = s := by
  unfold hydrateEffect
  rw [if_neg hr, if_pos hl]

/-- For an existing identity, any hydration that actually happens requires
that the identity was not yet loaded and that no local edits are pending. -/
theorem hydrateEffect_hydrates_only_if (r : String) (f : Workout) (n : ℚ)
    (s : EditorState) (hr : r ≠ routeNew)
    (h : hydrateEffect r f n s ≠ s) :
    s.loadedId ≠ some r ∧ s.isDirty = false := by
  unfold hydrateEffect at h
  rw [if_neg hr] at h
  split_ifs at h with h1 h2
  · exact absurd rfl h
  · exact absurd rfl h
  · exact ⟨h1, by simpa using h2⟩

/-! Claim C1. -/

/-- C1 — Dirty-wins-over-hydration: once the working copy is dirty, a refresh
of the backing workouts collection (any `newStore`, in particular one holding
a different payload for the loaded identity) leaves the whole editor state —
and so the working copy — unchanged apart from the refreshed store mirror;
the same holds whenever the identity is already loaded; and for an existing
identity the hydration effect overwrites anything only when that identity has
not yet been loaded in this instance and `isDirty` is false. -/
theorem dirty_wins_over_hydration (routeId : String) (freshWorkout : Workout)
    (now : ℚ) (newStore : List Workout) (s : EditorState)
    (hroute : routeId ≠ routeNew) :
    (s.isDirty = true →
      storeRefresh routeId freshWorkout now newStore s = { s with store := newStore }) ∧
    (s.loadedId = some routeId →
      storeRefresh routeId freshWorkout now newStore s = { s with store := newStore }) ∧
    (∀ s2 : EditorState, hydrateEffect routeId freshWorkout now s2 ≠ s2 →
      s2.loadedId ≠ some routeId ∧ s2.isDirty = false) := by
  refine ⟨fun hd => ?_, fun hl => ?_, fun s2 h2 => ?_⟩
  · exact hydrateEffect_dirty_skip routeId freshWorkout now _ hroute hd
  · exact hydrateEffect_loaded_skip routeId freshWorkout now _ hroute hl
  · exact hydrateEffect_hydrates_only_if routeId freshWorkout now s2 hroute h2

/-- Witness for C1 at a concrete dirty editor: the refresh delivering
`sampleRemote` (different payload, same identity) changes nothing but the
store mirror, so the locally edited working copy survives. -/
theorem dirty_wins_over_hydration_witness :
    storeRefresh sampleWorkout.id sampleWorkout 0 [sampleRemote] dirtyEditor =
      { dirtyEditor with store := [sampleRemote] } :=
  (dirty_wins_over_hydration sampleWorkout.id sampleWorkout 0 [sampleRemote]
      dirtyEditor (by decide)).1 rfl

/-! Claim C3. -/

/-- C3 — Autosave trigger guard: while `isHydrating` is true, or `isDirty` is
false, or the draft has zero exercises, the autosave effect schedules nothing
(it only clears any pending timer) and performs no flush; and a hydration
step — which runs the autosave effect once while `isHydrating` is still true
for the reconciled render and clears the flag only on the next scheduling
tick — never by itself causes a store write or leaves a flush scheduled. -/
theorem autosave_trigger_guard (s : EditorState)
    (hguard : s.isHydrating = true ∨ s.isDirty = false ∨ s.workout.exercises = []) :
    autosaveEffect s = { s with pendingAutosave := none } ∧
    (∀ (routeId : String) (freshWorkout : Workout) (now : ℚ) (s2 : EditorState),
      hydrateEffect routeId freshWorkout now s2 ≠ s2 →
        (hydrateEffect routeId freshWorkout now s2).isHydrating = true ∧
        (hydrateEffect routeId freshWorkout now s2).isDirty = false ∧
        (clearHydrating (autosaveEffect
            (hydrateEffect routeId freshWorkout now s2))).pendingAutosave = none ∧
        (clearHydrating (autosaveEffect
            (hydrateEffect routeId freshWorkout now s2))).upsertLog = s2.upsertLog ∧
        (clearHydrating (autosaveEffect
            (hydrateEffect routeId freshWorkout now s2))).store = s2.store ∧
        (clearHydrating (autosaveEffect
            (hydrateEffect routeId freshWorkout now s2))).isHydrating = false) := by
  refine ⟨autosaveEffect_guarded s hguard, fun routeId freshWorkout now s2 hchanged => ?_⟩
  obtain ⟨hh, hd⟩ := hydrateEffect_changed routeId freshWorkout now s2 hchanged
  have heff := autosaveEffect_guarded (hydrateEffect routeId freshWorkout now s2)
    (Or.inl hh)
  refine ⟨hh, hd, ?_, ?_, ?_, rfl⟩
  · rw [heff]; rfl
  · rw [heff]
    simpa [clearHydrating] using
      hydrateEffect_upsertLog routeId freshWorkout now s2
  · rw [heff]
    simpa [clearHydrating] using
      hydrateEffect_store routeId freshWorkout now s2

/-- Witness for C3 at a concrete clean editor (dirty flag false): the
autosave effect leaves no flush scheduled. -/
theorem autosave_trigger_guard_witness :
    autosaveEffect cleanEditor = { cleanEditor with pendingAutosave := none } :=
  (autosave_trigger_guard cleanEditor (Or.inr (Or.inl rfl))).1

/-! Lemmas about a single local edit and runs of edits. -/

/-- An edit leaves the hydration flag alone. -/
theorem editStep_isHydrating (f : Workout → Workout) (s : EditorState) :
    (editStep f s).isHydrating = s.isHydrating := by
  unfold editStep
  rw [autosaveEffect_isHydrating]
  rfl

/-- An edit issues no upsert. -/
theorem editStep_upsertLog (f : Workout → Workout) (s : EditorState) :
    (editStep f s).upsertLog = s.upsertLog := by
  unfold editStep
  rw [autosaveEffect_upsertLog]
  rfl

/-- An edit does not write the store. -/
theorem editStep_store (f : Workout → Workout) (s : EditorState) :
    (editStep f s).store = s.store := by
  unfold editStep
  rw [autosaveEffect_store]
  rfl

/-- An edit issues no delete. -/
theorem editStep_deleteLog (f : Workout → Workout) (s : EditorState) :
    (editStep f s).deleteLog = s.deleteLog := by
  unfold editStep
  rw [autosaveEffect_deleteLog]
  rfl

/-- An edit marks the draft dirty. -/
theorem editStep_isDirty (f : Workout → Workout) (s : EditorState) :
    (editStep f s).isDirty = true := by
  unfold editStep
  rw [autosaveEffect_isDirty]
  rfl

/-- An edit applies its mutation to the working copy. -/
theorem editStep_workout (f : Workout → Workout) (s : EditorState) :
    (editStep f s).workout = f s.workout := by
  unfold editStep
  rw [autosaveEffect_workout]

/-- An edit bumps the edit-sequence counter by one. -/
theorem editStep_editSeq (f : Workout → Workout) (s : EditorState) :
    (editStep f s).editSeq = s.editSeq + 1 := by
  unfold editStep
  rw [autosaveEffect_editSeq]
  rfl

/-- After an edit, the pending flush (if any) is the one scheduled by this
edit: the previous timer is always discarded first, so timers reset instead
of stacking. -/
theorem editStep_pending (f : Workout → Workout) (s : EditorState) :
    (editStep f s).pendingAutosave =
      if s.isHydrating = true ∨ (f s.workout).exercises = [] then none
      else some (s.editSeq + 1, f s.workout) := by
  unfold editStep
  rw [autosaveEffect_pending]
  simp [markDirty]

/-- Unfolding an empty edit run. -/
theorem editRun_nil (s : EditorState) : editRun [] s = s := rfl

/-- Unfolding a nonempty edit run. -/
theorem editRun_cons (f : Workout → Workout) (fs : List (Workout → Workout))
    (s : EditorState) : editRun (f :: fs) s = editRun fs (editStep f s) := rfl

/-- A run of local edits performs no store operation and does not touch the
hydration flag. -/
theorem editRun_preserves (fs : List (Workout → Workout)) :
    ∀ s : EditorState,
      (editRun fs s).isHydrating = s.isHydrating ∧
      (editRun fs s).upsertLog = s.upsertLog ∧
      (editRun fs s).store = s.store ∧
      (editRun fs s).deleteLog = s.deleteLog := by
  induction fs with
  | nil => exact fun s => ⟨rfl, rfl, rfl, rfl⟩
  | cons f fs ih =>
      intro s
      rw [editRun_cons]
      obtain ⟨a, b, c, d⟩ := ih (editStep f s)
      exact ⟨a.trans (editStep_isHydrating f s), b.trans (editStep_upsertLog f s),
             c.trans (editStep_store f s), d.trans (editStep_deleteLog f s)⟩

/-- After a nonempty run of local edits the draft is dirty and at most one
flush is pending: none if hydrating or the draft ended empty, otherwise
exactly the final working copy capturing the final edit sequence. -/
theorem editRun_dirty_pending (fs : List (Workout → Workout)) :
    ∀ s : EditorState, fs ≠ [] →
      (editRun fs s).isDirty = true ∧
      (editRun fs s).pendingAutosave =
        (if s.isHydrating = true ∨ (editRun fs s).workout.exercises = [] then none
         else some ((editRun fs s).editSeq, (editRun fs s).workout)) := by
  induction fs with
  | nil => exact fun s h => absurd rfl h
  | cons f fs ih =>
      intro s _
      rw [editRun_cons]
      cases fs with
      | nil =>
          rw [editRun_nil]
          exact ⟨editStep_isDirty f s, by
            rw [editStep_pending, editStep_workout, editStep_editSeq]⟩
      | cons g gs =>
          obtain ⟨hd, hp⟩ := ih (editStep f s) (by simp)
          exact ⟨hd, by rw [hp, editStep_isHydrating]⟩

/-- Firing the timer with a pending flush: the captured working copy goes to
the store (update if its identity is present, insert otherwise), exactly one
upsert is logged, and the dirty flag is cleared precisely when the captured
edit sequence still equals the current one. -/
theorem timerFire_fields (t : EditorState) (q : Nat) (w : Workout)
    (h : t.pendingAutosave = some (q, w)) :
    (timerFire t).upsertLog = t.upsertLog ++ [w] ∧
    (timerFire t).store =
      (if t.store.any (fun existing => existing.id = w.id) then updateWorkout w t.store
       else addWorkout w t.store) ∧
    (timerFire t).isDirty = (if q = t.editSeq then false else t.isDirty) ∧
    (timerFire t).workout = t.workout ∧
    (timerFire t).editSeq = t.editSeq := by
  unfold timerFire
  rw [h]
  dsimp only
  rw [saveWorkoutToContext_eq]
  dsimp only
  split_ifs <;> exact ⟨rfl, rfl, rfl, rfl, rfl⟩

/-! Claim C2. -/

/-- C2 — Autosave coalescing: across any nonempty run of local edits in one
quiet window (the editor not hydrating), no flush happens during the window,
exactly one flush is pending afterwards and it carries the final edited
working copy with the edit sequence captured at (re)scheduling time; when the
timer then fires, the store receives exactly one upsert of that final state
(update if the identity already exists in the store, insert otherwise) and,
since no edit intervened, the dirty flag is cleared; in general the firing
timer clears `isDirty` if and only if the captured edit sequence still equals
the current one. -/
theorem autosave_coalescing (s : EditorState) (fs : List (Workout → Workout))
    (hfs : fs ≠ []) (hh : s.isHydrating = false)
    (hex : (editRun fs s).workout.exercises ≠ []) :
    (editRun fs s).upsertLog = s.upsertLog ∧
    (editRun fs s).pendingAutosave =
      some ((editRun fs s).editSeq, (editRun fs s).workout) ∧
    (timerFire (editRun fs s)).upsertLog = s.upsertLog ++ [(editRun fs s).workout] ∧
    (timerFire (editRun fs s)).store =
      (if s.store.any (fun existing => existing.id = (editRun fs s).workout.id) then
          updateWorkout (editRun fs s).workout s.store
        else addWorkout (editRun fs s).workout s.store) ∧
    (timerFire (editRun fs s)).isDirty = false ∧
    (∀ t : EditorState, ∀ q : Nat, ∀ w : Workout, t.pendingAutosave = some (q, w) →
      (timerFire t).isDirty = (if q = t.editSeq then false else t.isDirty)) := by
  obtain ⟨hH, hU, hS, _⟩ := editRun_preserves fs s
  obtain ⟨hdirty, hpend⟩ := editRun_dirty_pending fs s hfs
  have hpend2 : (editRun fs s).pendingAutosave =
      some ((editRun fs s).editSeq, (editRun fs s).workout) := by
    rw [hpend, if_neg]
    simp [hh, hex]
  obtain ⟨fU, fS, fD, _, _⟩ :=
    timerFire_fields (editRun fs s) (editRun fs s).editSeq (editRun fs s).workout hpend2
  refine ⟨hU, hpend2, ?_, ?_, ?_, ?_⟩
  · rw [fU, hU]
  · rw [fS, hS]
  · rw [fD, if_pos rfl]
  · intro t q w hqw
    exact (timerFire_fields t q w hqw).2.2.1

/-- Witness for C2: five rapid title edits on a concrete clean-loaded editor,
then the debounce timer fires. -/
theorem autosave_coalescing_witness :
    (editRun (List.replicate 5 (fun w => { w with title := w.title ++ "x" }))
        cleanEditor).upsertLog = cleanEditor.upsertLog ∧
    (timerFire (editRun (List.replicate 5 (fun w => { w with title := w.title ++ "x" }))
        cleanEditor)).isDirty = false :=
  have h := autosave_coalescing cleanEditor
    (List.replicate 5 (fun w => { w with title := w.title ++ "x" }))
    (by simp) rfl (by decide)
  ⟨h.1, h.2.2.2.2.1⟩

/-! Claim C4. -/

/-- C4 — Deletion-on-empty: finishing or navigating away with save while the
draft has zero exercises issues no upsert of the empty draft; if a record
with the draft's identity exists in the store it is deleted (one delete
logged, the store filtered), and if none exists the state is untouched. -/
theorem deletion_on_empty (now : ℚ) (s : EditorState)
    (hempty : s.workout.exercises = []) :
    (handleFinish now s).upsertLog = s.upsertLog ∧
    (handleSaveBack s).upsertLog = s.upsertLog ∧
    (s.store.any (fun w => w.id = s.workout.id) = true →
      (handleFinish now s).store = deleteWorkout s.workout.id s.store ∧
      (handleFinish now s).deleteLog = s.deleteLog ++ [s.workout.id] ∧
      (handleSaveBack s).store = deleteWorkout s.workout.id s.store ∧
      (handleSaveBack s).deleteLog = s.deleteLog ++ [s.workout.id]) ∧
    (s.store.any (fun w => w.id = s.workout.id) = false →
      handleFinish now s = s ∧ handleSaveBack s = s) := by
  have hA : handleFinish now s =
      (if s.store.any (fun w => w.id = s.workout.id) then
        { s with store := deleteWorkout s.workout.id s.store
                 deleteLog := s.deleteLog ++ [s.workout.id] }
       else s) := by
    unfold handleFinish
    simp [hempty]
  have hB : handleSaveBack s =
      (if s.store.any (fun w => w.id = s.workout.id) then
        { s with store := deleteWorkout s.workout.id s.store
                 deleteLog := s.deleteLog ++ [s.workout.id] }
       else s) := by
    unfold handleSaveBack
    simp [hempty]
  refine ⟨?_, ?_, fun hany => ?_, fun hnone => ?_⟩
  · rw [hA]; split_ifs <;> rfl
  · rw [hB]; split_ifs <;> rfl
  · rw [hA, hB]
    simp [hany]
  · rw [hA, hB]
    simp [hnone]

/-- An editor holding an empty draft whose identity is present in the store. -/
def emptyDraftEditor : EditorState :=
  { workout := { sampleWorkout with exercises := [] }
    currentTime := 0, loadedId := some sampleWorkout.id
    isHydrating := false, isDirty := true, editSeq := 2
    pendingAutosave := none, store := [sampleWorkout]
    upsertLog := [], deleteLog := [] }

/-- Witness for C4: finishing the concrete empty draft deletes the stored
record and upserts nothing. -/
theorem deletion_on_empty_witness :
    (handleFinish 1000 emptyDraftEditor).upsertLog = emptyDraftEditor.upsertLog ∧
    (handleFinish 1000 emptyDraftEditor).store =
      deleteWorkout emptyDraftEditor.workout.id emptyDraftEditor.store :=
  have h := deletion_on_empty 1000 emptyDraftEditor rfl
  ⟨h.1, (h.2.2.1 (by decide)).1⟩

/-! Claim C5. -/

/-- The working copy after toggling the timer of a non-completed draft. -/
theorem toggleTimer_workout (now : ℚ) (s : EditorState)
    (hc : s.workout.completed = false) :
    (toggleTimer now s).workout =
      (match s.workout.startTimestamp with
       | some ts =>
           { s.workout with
               startTimestamp := none
               elapsedSeconds := s.workout.elapsedSeconds + (now - ts) / 1000 }
       | none => { s.workout with startTimestamp := some now }) := by
  unfold toggleTimer
  rw [if_neg (by simp [hc])]
  dsimp only
  rw [autosaveEffect_workout]
  split_ifs
  · rw [saveWorkoutToContext_workout]
  · rfl

/-- Toggling the timer of a completed draft does nothing at all. -/
theorem toggleTimer_completed (now : ℚ) (s : EditorState)
    (hc : s.workout.completed = true) :
    toggleTimer now s = s := by
  unfold toggleTimer
  rw [if_pos hc]

/-- The working copy after finishing a draft with at least one exercise. -/
theorem handleFinish_workout (now : ℚ) (s : EditorState)
    (hex : s.workout.exercises ≠ []) :
    (handleFinish now s).workout =
      { s.workout with
          completed := true
          startTimestamp := none
          elapsedSeconds := s.workout.elapsedSeconds +
            (match s.workout.startTimestamp with
             | some ts => (now - ts) / 1000
             | none => 0) } := by
  unfold handleFinish
  rw [if_neg (by simp [hex])]
  dsimp only
  rw [autosaveEffect_workout, saveWorkoutToContext_workout]

/-- The working copy after resuming. -/
theorem handleResume_workout (s : EditorState) :
    (handleResume s).workout = { s.workout with completed := false } := by
  unfold handleResume
  dsimp only
  rw [autosaveEffect_workout, saveWorkoutToContext_workout]

/-- C5 as the code has it (the amended claim): for a draft that is not
completed, toggling while running folds the elapsed wall time into
`elapsedSeconds` and nulls `startTimestamp`, and toggling while paused sets
`startTimestamp = now`; toggling a completed draft is a no-op (the code
guard the original claim misses); finishing a draft that has at least one
exercise folds any running session, clears `startTimestamp` and sets
`completed = true` (an empty draft takes the deletion path instead and its
fields are untouched); resuming sets `completed = false` and leaves
`startTimestamp` exactly as it was — in particular still null. -/
theorem timer_semantics (now : ℚ) (s : EditorState) :
    (s.workout.completed = false →
      (∀ ts : ℚ, s.workout.startTimestamp = some ts →
        (toggleTimer now s).workout.startTimestamp = none ∧
        (toggleTimer now s).workout.elapsedSeconds =
          s.workout.elapsedSeconds + (now - ts) / 1000) ∧
      (s.workout.startTimestamp = none →
        (toggleTimer now s).workout.startTimestamp = some now ∧
        (toggleTimer now s).workout.elapsedSeconds = s.workout.elapsedSeconds)) ∧
    (s.workout.completed = true → toggleTimer now s = s) ∧
    (s.workout.exercises ≠ [] →
      (handleFinish now s).workout.completed = true ∧
      (handleFinish now s).workout.startTimestamp = none ∧
      (handleFinish now s).workout.elapsedSeconds =
        s.workout.elapsedSeconds +
          (match s.workout.startTimestamp with
           | some ts => (now - ts) / 1000
           | none => 0)) ∧
    ((handleResume s).workout.completed = false ∧
     (handleResume s).workout.startTimestamp = s.workout.startTimestamp) := by
  refine ⟨fun hc => ⟨fun ts hts => ?_, fun hts => ?_⟩, fun hc => ?_, fun hex => ?_, ?_, ?_⟩
  · rw [toggleTimer_workout now s hc, hts]
    exact ⟨rfl, rfl⟩
  · rw [toggleTimer_workout now s hc, hts]
    exact ⟨rfl, rfl⟩
  · exact toggleTimer_completed now s hc
  · rw [handleFinish_workout now s hex]
    exact ⟨rfl, rfl, rfl⟩
  · rw [handleResume_workout]
  · rw [handleResume_workout]

/-- An editor holding a completed, paused draft with one exercise. -/
def completedEditor : EditorState :=
  { workout := { sampleWorkout with completed := true }
    currentTime := 0, loadedId := some sampleWorkout.id
    isHydrating := false, isDirty := false, editSeq := 0
    pendingAutosave := none, store := [sampleWorkout]
    upsertLog := [], deleteLog := [] }

/-- Counterexample to C5 as stated: the claim's unconditional rules fail on
the code.  Toggling the timer of a paused (`startTimestamp = null`) but
completed draft does not set `startTimestamp = now` (the handler returns
early on `workout.completed`), and finishing a draft with zero exercises
does not set `completed = true` (the handler takes the deletion path). -/
theorem timer_semantics_counterexample :
    ¬ ((toggleTimer 1000 completedEditor).workout.startTimestamp = some 1000) ∧
    ¬ ((handleFinish 1000 emptyDraftEditor).workout.completed = true) := by
  decide

/-- An editor holding a running (timer started at t = 1000 ms) draft. -/
def runningEditor : EditorState :=
  { workout := { sampleWorkout with startTimestamp := some 1000, elapsedSeconds := 7 }
    currentTime := 7, loadedId := some sampleWorkout.id
    isHydrating := false, isDirty := false, editSeq := 0
    pendingAutosave := none, store := [sampleWorkout]
    upsertLog := [], deleteLog := [] }

/-- Witness for the amended C5 at a concrete running draft. -/
theorem timer_semantics_witness :
    (toggleTimer 6000 runningEditor).workout.startTimestamp = none ∧
    (toggleTimer 6000 runningEditor).workout.elapsedSeconds =
      runningEditor.workout.elapsedSeconds + (6000 - 1000) / 1000 :=
  ((timer_semantics 6000 runningEditor).1 rfl).1 1000 rfl

/-! Claim C6. -/

/-- C6 — the code loses long-press/tap exclusivity in exactly the race the
spec calls out, so the claim fails on the code: after `down` and a `render`
that arms the timer, a `fire` followed by a pointer-up in the same tick
(no `render` in between, so the `up` handler still sees the stale
`startLongPress = true` closure, and `timerRef.current` still holds the
fired timer's id because the code never clears it on firing) invokes both
`callback` (long-press) and `onClick` (tap) once each.  With a `render`
between `fire` and `up` — the non-racing schedule — only the long press
fires, which is the behaviour the claim describes. -/
theorem useLongPress_race_fires_both :
    (runLP raceTrace).longPressCount = 1 ∧
    (runLP raceTrace).tapCount = 1 ∧
    (runLP [LPEvent.down 0 0, LPEvent.render, LPEvent.fire, LPEvent.render,
        LPEvent.up]).longPressCount = 1 ∧
    (runLP [LPEvent.down 0 0, LPEvent.render, LPEvent.fire, LPEvent.render,
        LPEvent.up]).tapCount = 0 := by
  decide

/-! Claim C7. -/

/-- C7 — Swipe classification: `useSwipe` computes `dx = start.x - end.x`
and `dy = start.y - end.y`, goes horizontal iff `|dx| > |dy|`, emits nothing
when the dominant-axis magnitude is under the 50 px minimum, and otherwise
fires exactly one directional callback — swipe-left for positive `dx`,
swipe-right for negative `dx`, swipe-up for positive `dy`, swipe-down for
negative `dy`; the drag with `dx = -80, dy = 5` fires exactly swipe-right. -/
theorem swipe_classification (ps pe : ℚ × ℚ) :
    ((onPointerUpSwipe (some ps) (some pe)).length ≤ 1) ∧
    (|ps.1 - pe.1| > |ps.2 - pe.2| →
      (|ps.1 - pe.1| < minSwipeDistance → onPointerUpSwipe (some ps) (some pe) = []) ∧
      (minSwipeDistance ≤ |ps.1 - pe.1| → 0 < ps.1 - pe.1 →
        onPointerUpSwipe (some ps) (some pe) = [SwipeDir.left]) ∧
      (minSwipeDistance ≤ |ps.1 - pe.1| → ps.1 - pe.1 < 0 →
        onPointerUpSwipe (some ps) (some pe) = [SwipeDir.right])) ∧
    (¬(|ps.1 - pe.1| > |ps.2 - pe.2|) →
      (|ps.2 - pe.2| < minSwipeDistance → onPointerUpSwipe (some ps) (some pe) = []) ∧
      (minSwipeDistance ≤ |ps.2 - pe.2| → 0 < ps.2 - pe.2 →
        onPointerUpSwipe (some ps) (some pe) = [SwipeDir.up]) ∧
      (minSwipeDistance ≤ |ps.2 - pe.2| → ps.2 - pe.2 < 0 →
        onPointerUpSwipe (some ps) (some pe) = [SwipeDir.down])) ∧
    onPointerUpSwipe (some (0, 0)) (some (80, -5)) = [SwipeDir.right] := by
  have hconc : onPointerUpSwipe (some ((0 : ℚ), 0)) (some (80, -5)) = [SwipeDir.right] := by
    unfold onPointerUpSwipe
    dsimp only
    rw [show ((0 : ℚ) - 80) = -80 by norm_num, show ((0 : ℚ) - (-5)) = 5 by norm_num]
    rw [abs_neg, abs_of_nonneg (by norm_num : (0 : ℚ) ≤ 80),
        abs_of_nonneg (by norm_num : (0 : ℚ) ≤ 5)]
    norm_num [minSwipeDistance]
  refine ⟨?_, fun hhor => ⟨fun hlt => ?_, fun hge hpos => ?_, fun hge hneg => ?_⟩,
    fun hver => ⟨fun hlt => ?_, fun hge hpos => ?_, fun hge hneg => ?_⟩, hconc⟩ <;>
    · unfold onPointerUpSwipe
      dsimp only
      split_ifs <;> first
        | decide
        | (simp_all <;> linarith)

/-- Witness for C7: a 100 px leftward drag fires swipe-left; a 30 px drag
below the minimum distance fires nothing. -/
theorem swipe_classification_witness :
    onPointerUpSwipe (some ((100 : ℚ), 0)) (some (0, 0)) = [SwipeDir.left] ∧
    onPointerUpSwipe (some ((0 : ℚ), 0)) (some (30, 0)) = [] :=
  ⟨((swipe_classification (100, 0) (0, 0)).2.1 (by norm_num)).2.1
      (by norm_num [minSwipeDistance]) (by norm_num),
   ((swipe_classification (0, 0) (30, 0)).2.1 (by norm_num)).1
      (by norm_num [minSwipeDistance])⟩

/-! Claim C8. -/

/-- The threshold evaluates to 23.04 px. -/
theorem OPEN_THRESHOLD_val : OPEN_THRESHOLD = 23.04 := by
  unfold OPEN_THRESHOLD ACTION_WIDTH
  rw [max_eq_right (by norm_num : (18 : ℚ) ≤ 128 * 0.18)]
  norm_num

/-- C8 — Reveal snap thresholds: on release of a horizontally-locked drag the
item settles to `+ACTION_WIDTH` iff the final offset exceeds `OPEN_THRESHOLD`
or the net drag exceeds 12 with velocity above `VELOCITY_OPEN`; failing that,
to `-ACTION_WIDTH` under the symmetric condition; and to `0` otherwise.
Consequently releasing at `OPEN_THRESHOLD + 1` snaps open to `+ACTION_WIDTH`
and releasing at `OPEN_THRESHOLD - 1` with low velocity snaps to `0`. -/
theorem reveal_snap_thresholds (x baseOffset elapsedMs : ℚ) :
    (handlePointerUpSettle x baseOffset elapsedMs = ACTION_WIDTH ↔
      (x > OPEN_THRESHOLD ∨
        (x - baseOffset > 12 ∧ |x - baseOffset| / max 1 elapsedMs > VELOCITY_OPEN))) ∧
    (handlePointerUpSettle x baseOffset elapsedMs = -ACTION_WIDTH ↔
      (¬(x > OPEN_THRESHOLD ∨
          (x - baseOffset > 12 ∧ |x - baseOffset| / max 1 elapsedMs > VELOCITY_OPEN)) ∧
       (x < -OPEN_THRESHOLD ∨
          (x - baseOffset < -12 ∧ |x - baseOffset| / max 1 elapsedMs > VELOCITY_OPEN)))) ∧
    (handlePointerUpSettle x baseOffset elapsedMs = 0 ↔
      (¬(x > OPEN_THRESHOLD ∨
          (x - baseOffset > 12 ∧ |x - baseOffset| / max 1 elapsedMs > VELOCITY_OPEN)) ∧
       ¬(x < -OPEN_THRESHOLD ∨
          (x - baseOffset < -12 ∧ |x - baseOffset| / max 1 elapsedMs > VELOCITY_OPEN)))) ∧
    (x = OPEN_THRESHOLD + 1 → handlePointerUpSettle x baseOffset elapsedMs = ACTION_WIDTH) ∧
    (x = OPEN_THRESHOLD - 1 → |x - baseOffset| / max 1 elapsedMs ≤ VELOCITY_OPEN →
      handlePointerUpSettle x baseOffset elapsedMs = 0) := by
  unfold handlePointerUpSettle
  dsimp only
  split_ifs with hR hL
  · refine ⟨⟨fun _ => hR, fun _ => rfl⟩, ?_, ?_, fun _ => rfl, fun hx hv => ?_⟩
    · exact ⟨fun h => absurd h (by norm_num [ACTION_WIDTH]),
        fun h => absurd hR h.1⟩
    · exact ⟨fun h => absurd h (by norm_num [ACTION_WIDTH]),
        fun h => absurd hR h.1⟩
    · exfalso
      rcases hR with h | ⟨h12, hvgt⟩
      · rw [hx] at h; linarith
      · linarith
  · refine ⟨?_, ⟨fun _ => ⟨hR, hL⟩, fun _ => rfl⟩, ?_, fun hx => ?_, fun hx hv => ?_⟩
    · exact ⟨fun h => absurd h (by norm_num [ACTION_WIDTH]), fun h => absurd h hR⟩
    · exact ⟨fun h => absurd h (by norm_num [ACTION_WIDTH]),
        fun h => absurd hL h.2⟩
    · exact absurd (Or.inl (by rw [hx]; linarith)) hR
    · exfalso
      rcases hL with h | ⟨h12, hvgt⟩
      · rw [hx, OPEN_THRESHOLD_val] at h
        norm_num at h
      · linarith
  · refine ⟨?_, ?_, ⟨fun _ => ⟨hR, hL⟩, fun _ => rfl⟩, fun hx => ?_, fun _ _ => rfl⟩
    · exact ⟨fun h => absurd h.symm (by norm_num [ACTION_WIDTH]), fun h => absurd h hR⟩
    · exact ⟨fun h => absurd h.symm (by norm_num [ACTION_WIDTH]), fun h => absurd h.2 hL⟩
    · exact absurd (Or.inl (by rw [hx]; linarith)) hR

/-- Witness for C8: releasing at `OPEN_THRESHOLD + 1` snaps to
`+ACTION_WIDTH`; releasing at `OPEN_THRESHOLD - 1` with zero net drag (hence
low velocity) snaps to `0`. -/
theorem reveal_snap_thresholds_witness :
    handlePointerUpSettle (OPEN_THRESHOLD + 1) 0 100 = ACTION_WIDTH ∧
    handlePointerUpSettle (OPEN_THRESHOLD - 1) (OPEN_THRESHOLD - 1) 1000 = 0 :=
  ⟨(reveal_snap_thresholds (OPEN_THRESHOLD + 1) 0 100).2.2.2.1 rfl,
   (reveal_snap_thresholds (OPEN_THRESHOLD - 1) (OPEN_THRESHOLD - 1) 1000).2.2.2.2 rfl
     (by norm_num [VELOCITY_OPEN])⟩

/-! Claim C9. -/

/-- The exercise list after `addExercise`: the old list plus one new instance
holding exactly one default set. -/
theorem addExercise_exercises (defId fI fS : String) (s : EditorState) :
    (addExercise defId fI fS s).workout.exercises =
      s.workout.exercises ++ [{ id := fI, defId := defId, sets := [defaultSet fS] }] := by
  unfold addExercise
  dsimp only
  rw [autosaveEffect_workout, saveWorkoutToContext_workout]
  dsimp only
  split_ifs <;> rfl

/-- `addExercise` preserves the at-least-one-set invariant. -/
theorem addExercise_at_least_one (defId fI fS : String) (s : EditorState)
    (hinv : atLeastOneSet s.workout) :
    atLeastOneSet (addExercise defId fI fS s).workout := by
  unfold atLeastOneSet at hinv ⊢
  intro ex2 hmem
  rw [addExercise_exercises, List.mem_append] at hmem
  rcases hmem with h | h
  · exact hinv ex2 h
  · rw [List.mem_singleton] at h
    subst h
    simp [defaultSet]

/-- `addSet` preserves the at-least-one-set invariant. -/
theorem addSet_at_least_one (exId fS : String) (s : EditorState)
    (hinv : atLeastOneSet s.workout) :
    atLeastOneSet (addSet exId fS s).workout := by
  unfold atLeastOneSet at hinv ⊢
  unfold addSet
  rw [autosaveEffect_workout]
  dsimp only
  intro ex2 hmem
  rw [List.mem_map] at hmem
  obtain ⟨ex, hex, rfl⟩ := hmem
  by_cases h : ex.id = exId
  · simp [h]
  · simp only [h, ne_eq, not_false_iff, if_true]
    exact hinv ex hex

/-- `deleteSet` preserves the at-least-one-set invariant: an emptied set list
is replaced by one fresh default set. -/
theorem deleteSet_at_least_one (exId setId fS : String) (s : EditorState)
    (hinv : atLeastOneSet s.workout) :
    atLeastOneSet (deleteSet exId setId fS s).workout := by
  unfold atLeastOneSet at hinv ⊢
  unfold deleteSet
  rw [autosaveEffect_workout]
  dsimp only
  intro ex2 hmem
  rw [List.mem_map] at hmem
  obtain ⟨ex, hex, rfl⟩ := hmem
  by_cases h : ex.id = exId
  · simp only [h, ne_eq, not_true, if_false]
    split_ifs with hlen
    · exact List.ne_nil_of_length_pos hlen
    · simp
  · simp only [h, ne_eq, not_false_iff, if_true]
    exact hinv ex hex

/-- Deleting the only remaining set of an exercise replaces it by one fresh
default set. -/
theorem deleteSet_last_replaced (exId setId fS : String) (s : EditorState)
    (ex : ExerciseInstance) (hex : ex ∈ s.workout.exercises) (hid : ex.id = exId)
    (hall : ∀ t ∈ ex.sets, t.id = setId) :
    { ex with sets := [defaultSet fS] } ∈
      (deleteSet exId setId fS s).workout.exercises := by
  unfold deleteSet
  rw [autosaveEffect_workout]
  dsimp only
  rw [List.mem_map]
  refine ⟨ex, hex, ?_⟩
  have hfilter : ex.sets.filter (fun t => t.id ≠ setId) = [] := by
    rw [List.filter_eq_nil_iff]
    intro t ht
    simp [hall t ht]
  rw [if_neg (by simp [hid]), hfilter]
  simp

/-- C9 — At-least-one-set invariant: exercises are created by `addExercise`
with exactly one default set (weight 0, reps 0, not completed); `addSet` and
`deleteSet` preserve the invariant that every exercise instance of the
working copy has at least one set; and `deleteSet` on the only remaining set
of an exercise replaces it with one fresh default set rather than leaving
the list empty. -/
theorem at_least_one_set (s : EditorState) (hinv : atLeastOneSet s.workout) :
    (∀ defId freshInstId freshSetId : String,
      atLeastOneSet (addExercise defId freshInstId freshSetId s).workout ∧
      (addExercise defId freshInstId freshSetId s).workout.exercises =
        s.workout.exercises ++
          [{ id := freshInstId, defId := defId, sets := [defaultSet freshSetId] }]) ∧
    (∀ exId freshSetId : String, atLeastOneSet (addSet exId freshSetId s).workout) ∧
    (∀ exId setId freshSetId : String,
      atLeastOneSet (deleteSet exId setId freshSetId s).workout) ∧
    (∀ exId setId freshSetId : String, ∀ ex ∈ s.workout.exercises, ex.id = exId →
      (∀ t ∈ ex.sets, t.id = setId) →
      { ex with sets := [defaultSet freshSetId] } ∈
        (deleteSet exId setId freshSetId s).workout.exercises) :=
  ⟨fun defId fI fS => ⟨addExercise_at_least_one defId fI fS s hinv,
      addExercise_exercises defId fI fS s⟩,
   fun exId fS => addSet_at_least_one exId fS s hinv,
   fun exId setId fS => deleteSet_at_least_one exId setId fS s hinv,
   fun exId setId fS ex hex hid hall =>
      deleteSet_last_replaced exId setId fS s ex hex hid hall⟩

/-- A fresh set id for the witnesses. -/
def sampleFreshSetId : String := "s-fresh"

/-- Witness for C9: deleting the only set of the concrete loaded exercise
leaves every exercise with at least one set. -/
theorem at_least_one_set_witness :
    atLeastOneSet
      (deleteSet sampleExercise.id sampleSet.id sampleFreshSetId cleanEditor).workout :=
  (at_least_one_set cleanEditor (by decide)).2.2.1
    sampleExercise.id sampleSet.id sampleFreshSetId

/-! Claim C10. -/

/-- C10 — Copy semantics: when no workout with `workoutId` is in the store,
`copyWorkout` leaves it unchanged; when `source` is found, the store becomes
the old list plus exactly one new workout carrying the fresh id, the target
date, `completed = false`, `elapsedSeconds = 0`, `startTimestamp = null`,
and the source's exercise list with every set's completed flag reset while
weights and reps are untouched — every pre-existing workout, the source
included, is carried over unchanged. -/
theorem copy_semantics (workouts : List Workout)
    (workoutId targetDate freshId : String) :
    (workouts.find? (fun w => w.id = workoutId) = none →
      copyWorkout workoutId targetDate freshId workouts = workouts) ∧
    (∀ source : Workout, workouts.find? (fun w => w.id = workoutId) = some source →
      copyWorkout workoutId targetDate freshId workouts =
        workouts ++
          [{ source with
              id := freshId
              date := targetDate
              completed := false
              elapsedSeconds := 0
              startTimestamp := none
              exercises := source.exercises.map (fun ex =>
                { ex with sets := ex.sets.map (fun t =>
                    { t with completed := false }) }) }]) := by
  constructor
  · intro h
    unfold copyWorkout
    rw [h]
  · intro source h
    unfold copyWorkout
    rw [h]
    rfl

/-- The target date used by the C10 witness. -/
def targetDateSample : String := "2025-02-02"

/-- The fresh id used by the C10 witness. -/
def freshIdSample : String := "w2"

/-- Witness for C10 on a one-element store holding `sampleWorkout`. -/
theorem copy_semantics_witness :
    copyWorkout sampleWorkout.id targetDateSample freshIdSample [sampleWorkout] =
      [sampleWorkout] ++
        [{ sampleWorkout with
            id := freshIdSample
            date := targetDateSample
            completed := false
            elapsedSeconds := 0
            startTimestamp := none
            exercises := sampleWorkout.exercises.map (fun ex =>
              { ex with sets := ex.sets.map (fun t =>
                  { t with completed := false }) }) }] :=
  (copy_semantics [sampleWorkout] sampleWorkout.id targetDateSample freshIdSample).2
    sampleWorkout (by decide)

end Gym
